import Mathlib

/-!
Verification development for the `resilient-aging` repository.

The Python modules `resilient_ager.py`, `prevalence.py` and
`synthetic_data.py` are shallowly embedded below.  Floating-point ages
and rates are modelled as rationals (`ℚ`); pandas data frames become
lists of records; SQL queries feeding the analysis are abstracted into
the list of per-person `AgeTimeline` rows that
`calculate_age_at_diagnosis` produces.
-/

namespace ResilientAging

/-- One row of the data frame produced by `calculate_age_at_diagnosis`
(`prevalence.py`): per-person current age, optional age at first
diagnosis and deceased flag.  `has_condition` is derived, exactly as
`age_at_diagnosis is not None` in the source. -/
structure AgeTimeline where
  person_id : ℕ
  current_age : ℚ
  age_at_diagnosis : Option ℚ
  is_deceased : Bool
deriving DecidableEq, Repr

/-- The derived `has_condition` column: `age_at_diagnosis is not None`. -/
def AgeTimeline.has_condition (t : AgeTimeline) : Bool :=
  t.age_at_diagnosis.isSome

/-- Result record of `classify_individual` (`resilient_ager.py`). -/
structure ResilientAgerResult where
  person_id : ℕ
  current_age : ℚ
  has_condition : Bool
  age_at_diagnosis : Option ℚ
  is_resilient : Bool
  resilience_score : ℚ
  classification : String
deriving DecidableEq, Repr

/-- Embedding of `classify_individual` (`resilient_ager.py`, lines
125-192).  The Python guard `if age_at_diagnosis and age_at_diagnosis >
threshold_age` is truthiness-sensitive: `None` and `0.0` are both
falsy, hence the `d ≠ 0` conjunct. -/
def classify_individual (person_id : ℕ) (current_age : ℚ)
    (has_condition : Bool) (age_at_diagnosis : Option ℚ)
    (threshold_age : ℚ) (min_age_for_resilience : ℚ) :
    ResilientAgerResult :=
  if has_condition then
    match age_at_diagnosis with
    | some d =>
      if d ≠ 0 ∧ threshold_age < d then
        ⟨person_id, current_age, true, some d, false, d - threshold_age,
          "late_onset"⟩
      else
        ⟨person_id, current_age, true, some d, false, 0, "affected"⟩
    | none =>
      ⟨person_id, current_age, true, none, false, 0, "affected"⟩
  else
    if threshold_age ≤ current_age ∧ min_age_for_resilience ≤ current_age then
      ⟨person_id, current_age, false, none, true,
        current_age - threshold_age, "resilient_ager"⟩
    else if min_age_for_resilience ≤ current_age then
      ⟨person_id, current_age, false, none, false, 0,
        "disease_free_not_threshold"⟩
    else
      ⟨person_id, current_age, false, none, false, 0, "too_young"⟩

/-- Linear interpolation at a virtual (possibly fractional) index into a
sorted list: the lower order statistic plus the fractional part times
the gap to the next one, with the upper index clipped to the last
position.  This is the interpolation step of `np.percentile` (default
`linear` method). -/
def interpolate (s : List ℚ) (pos : ℚ) : ℚ :=
  let lo : ℕ := ⌊pos⌋.toNat
  let hi : ℕ := min (lo + 1) (s.length - 1)
  s.getD lo 0 + (pos - (lo : ℚ)) * (s.getD hi 0 - s.getD lo 0)

/-- Embedding of `np.percentile(xs, q)` with the default linear
interpolation: sort the sample, then interpolate at the virtual index
`q/100 * (n - 1)`. -/
def npPercentile (xs : List ℚ) (q : ℚ) : ℚ :=
  let s := List.insertionSort (· ≤ ·) xs
  interpolate s (q / 100 * ((s.length : ℚ) - 1))

/-- Embedding of `get_percentile_onset_age` (`prevalence.py`, lines
260-279): the percentile of `age_at_diagnosis` over the rows where it
is present, `None` when nobody is diagnosed. -/
def get_percentile_onset_age (tls : List AgeTimeline) (percentile : ℚ) :
    Option ℚ :=
  let diagnosed := tls.filterMap (fun t => t.age_at_diagnosis)
  if diagnosed.isEmpty then none else some (npPercentile diagnosed percentile)

/-- Embedding of the `PopulationThresholds` dataclass
(`resilient_ager.py`). -/
structure PopulationThresholds where
  median_onset_age : Option ℚ
  percentile_75_onset_age : Option ℚ
  percentile_90_onset_age : Option ℚ
  n_total : ℕ
  n_affected : ℕ
  prevalence : ℚ
deriving DecidableEq, Repr

/-- Embedding of `get_population_thresholds` (`resilient_ager.py`,
lines 75-122), over the extracted timelines. -/
def get_population_thresholds (tls : List AgeTimeline) :
    PopulationThresholds :=
  let n_total := tls.length
  let n_affected := (tls.filter (fun t => t.has_condition)).length
  let prevalence : ℚ := if 0 < n_total then (n_affected : ℚ) / n_total else 0
  ⟨get_percentile_onset_age tls 50, get_percentile_onset_age tls 75,
    get_percentile_onset_age tls 90, n_total, n_affected, prevalence⟩

/-- The threshold age used by `classify_resilient_agers`
(`resilient_ager.py`, lines 229-240): the 75th/90th percentile from the
population thresholds (or a freshly computed custom percentile), with
the `None` case replaced by the 100-year sentinel. -/
def population_threshold_age (tls : List AgeTimeline)
    (percentile_threshold : ℚ) : ℚ :=
  let thresholds := get_population_thresholds tls
  let t :=
    if percentile_threshold = 75 then thresholds.percentile_75_onset_age
    else if percentile_threshold = 90 then thresholds.percentile_90_onset_age
    else get_percentile_onset_age tls percentile_threshold
  t.getD 100

/-- One row of the data frame built by `classify_resilient_agers`
(`resilient_ager.py`, lines 256-266). -/
structure ClassifiedRow where
  person_id : ℕ
  current_age : ℚ
  has_condition : Bool
  age_at_diagnosis : Option ℚ
  is_resilient : Bool
  resilience_score : ℚ
  classification : String
  disease_key : String
  threshold_age : ℚ
deriving DecidableEq, Repr

/-- Embedding of `classify_resilient_agers` (`resilient_ager.py`,
lines 195-268): resolve the population threshold (with the 100-year
sentinel when it is `None`) and classify every timeline with it. -/
def classify_resilient_agers (tls : List AgeTimeline) (disease_key : String)
    (min_age : ℚ) (percentile_threshold : ℚ) : List ClassifiedRow :=
  let threshold_age := population_threshold_age tls percentile_threshold
  tls.map (fun t =>
    let r := classify_individual t.person_id t.current_age t.has_condition
      t.age_at_diagnosis threshold_age min_age
    ⟨r.person_id, r.current_age, r.has_condition, r.age_at_diagnosis,
      r.is_resilient, r.resilience_score, r.classification, disease_key,
      threshold_age⟩)

/-- Mean of a list of rationals (`pandas` `Series.mean` on a non-empty
column). -/
def listMean (xs : List ℚ) : ℚ := xs.sum / (xs.length : ℚ)

/-- The dictionary returned by `compare_cohorts` (`resilient_ager.py`,
lines 330-343). -/
structure CohortComparison where
  disease_key : String
  min_age : ℚ
  total_eligible : ℕ
  n_resilient : ℕ
  n_affected : ℕ
  n_typical : ℕ
  pct_resilient : ℚ
  pct_affected : ℚ
  avg_age_resilient : Option ℚ
  avg_age_affected : Option ℚ
  avg_resilience_score : Option ℚ
  threshold_age : Option ℚ
deriving DecidableEq, Repr

/-- Embedding of `compare_cohorts` (`resilient_ager.py`, lines
303-343): classify, restrict to `current_age ≥ min_age`, then count and
average the resilient / affected / typical groups, with every division
guarded exactly as in the source. -/
def compare_cohorts (tls : List AgeTimeline) (disease_key : String)
    (min_age : ℚ) : CohortComparison :=
  let df := classify_resilient_agers tls disease_key min_age 75
  let df_eligible := df.filter (fun r => min_age ≤ r.current_age)
  let total := df_eligible.length
  let resilient := df_eligible.filter (fun r => r.is_resilient)
  let affected := df_eligible.filter (fun r => r.has_condition)
  let typical := df_eligible.filter
    (fun r => !r.is_resilient && !r.has_condition)
  ⟨disease_key, min_age, total, resilient.length, affected.length,
    typical.length,
    (if 0 < total then (resilient.length : ℚ) / (total : ℚ) * 100 else 0),
    (if 0 < total then (affected.length : ℚ) / (total : ℚ) * 100 else 0),
    (if 0 < resilient.length then
      some (listMean (resilient.map (fun r => r.current_age))) else none),
    (if 0 < affected.length then
      some (listMean (affected.map (fun r => r.current_age))) else none),
    (if 0 < resilient.length then
      some (listMean (resilient.map (fun r => r.resilience_score))) else none),
    ((df_eligible.head?).map (fun r => r.threshold_age))⟩

/-- Count of `n_events` at a grid age (`prevalence.py`, lines 191-195):
timelines whose `age_at_diagnosis` is present and `≤ age`. -/
def n_events (tls : List AgeTimeline) (age : ℚ) : ℕ :=
  (tls.filter (fun t =>
    match t.age_at_diagnosis with
    | some d => decide (d ≤ age)
    | none => false)).length

/-- Count of `n_at_risk` at a grid age (`prevalence.py`, lines
183-188): the filter `current_age ≥ age` or (`age_at_diagnosis` present
and `≥ age`) or (`is_deceased` and `current_age ≥ age`). -/
def n_at_risk (tls : List AgeTimeline) (age : ℚ) : ℕ :=
  (tls.filter (fun t =>
    decide (age ≤ t.current_age) ||
    (match t.age_at_diagnosis with
     | some d => decide (age ≤ d)
     | none => false) ||
    (t.is_deceased && decide (age ≤ t.current_age)))).length

/-- The `cumulative_incidence` value at a grid age (`prevalence.py`,
line 198): `n_events / len(df)` with the empty-population guard. -/
def cumulative_incidence (tls : List AgeTimeline) (age : ℚ) : ℚ :=
  if 0 < tls.length then (n_events tls age : ℚ) / (tls.length : ℚ) else 0

/-- The fixed age grid `np.arange(0, max_age + age_step, age_step)`
(`prevalence.py`, line 178): the multiples `i * age_step` for
`i < ⌈(max_age + age_step) / age_step⌉`. -/
def age_grid (max_age age_step : ℚ) : List ℚ :=
  (List.range (⌈(max_age + age_step) / age_step⌉.toNat)).map
    (fun i => (i : ℚ) * age_step)

/-- The at-risk clause union as the specification words it: still alive
past the age, or diagnosed at or after it, or deceased and observable
at or after it.  (The timeline row carries no death age; its deceased
information is the `is_deceased` flag next to `current_age`, which is
what both the source filter and the specification's third clause can
refer to.) -/
def at_risk_spec (age : ℚ) (t : AgeTimeline) : Prop :=
  age ≤ t.current_age ∨
  (t.age_at_diagnosis.isSome ∧ age ≤ t.age_at_diagnosis.getD 0) ∨
  (t.is_deceased = true ∧ age ≤ t.current_age)

instance (age : ℚ) (t : AgeTimeline) : Decidable (at_risk_spec age t) := by
  unfold at_risk_spec
  infer_instance

/-- An age band `(min_age, max_age)` with its annual rate per 1000
person-years (`synthetic_data.py`). -/
abbrev RateBand := (ℚ × ℚ) × ℚ

/-- Embedding of `get_rate_for_age` (`synthetic_data.py`, lines
105-110): scan the bands in order, return the rate of the first
half-open band `[min_age, max_age)` containing the age, else `0.0`. -/
def get_rate_for_age (rates : List RateBand) (age : ℚ) : ℚ :=
  match rates with
  | [] => 0
  | ((lo, hi), r) :: rest =>
    if lo ≤ age ∧ age < hi then r else get_rate_for_age rest age

/-- `MORTALITY_RATES` (`synthetic_data.py`, lines 90-102). -/
def MORTALITY_RATES : List RateBand :=
  [((0, 1), 6), ((1, 5), 3/10), ((5, 15), 15/100), ((15, 25), 8/10),
   ((25, 35), 1), ((35, 45), 2), ((45, 55), 4), ((55, 65), 10),
   ((65, 75), 25), ((75, 85), 60), ((85, 100), 150)]

/-- `DISEASE_INCIDENCE_RATES` (`synthetic_data.py`, lines 22-87), keyed
by disease, each with the first concept id of the disease's concept set
(`concept_sets.py`) used for the generated condition rows. -/
def DISEASE_INCIDENCE_RATES : List (String × ℕ × List RateBand) :=
  [("type2_diabetes", 201826,
    [((0, 30), 5/10), ((30, 40), 2), ((40, 50), 5), ((50, 60), 10),
     ((60, 70), 15), ((70, 80), 18), ((80, 100), 12)]),
   ("alzheimer", 378419,
    [((0, 60), 1/10), ((60, 65), 1), ((65, 70), 3), ((70, 75), 8),
     ((75, 80), 15), ((80, 85), 30), ((85, 100), 50)]),
   ("coronary_artery_disease", 316139,
    [((0, 40), 5/10), ((40, 50), 3), ((50, 60), 8), ((60, 70), 15),
     ((70, 80), 25), ((80, 100), 30)]),
   ("atrial_fibrillation", 313217,
    [((0, 50), 2/10), ((50, 60), 2), ((60, 70), 5), ((70, 80), 10),
     ((80, 100), 20)]),
   ("heart_failure", 316139,
    [((0, 50), 5/10), ((50, 60), 2), ((60, 70), 5), ((70, 80), 12),
     ((80, 100), 25)]),
   ("copd", 255573,
    [((0, 40), 1/10), ((40, 50), 2), ((50, 60), 5), ((60, 70), 10),
     ((70, 80), 15), ((80, 100), 18)]),
   ("hypertension", 316866,
    [((0, 30), 2), ((30, 40), 8), ((40, 50), 15), ((50, 60), 25),
     ((60, 70), 35), ((70, 80), 45), ((80, 100), 50)]),
   ("stroke", 443454,
    [((0, 50), 3/10), ((50, 60), 2), ((60, 70), 5), ((70, 80), 12),
     ((80, 100), 25)])]

/-- Every age-banded rate table the simulator consults: the mortality
table and the per-disease incidence tables. -/
def all_rate_tables : List (List RateBand) :=
  MORTALITY_RATES :: DISEASE_INCIDENCE_RATES.map (fun d => d.2.2)

/-- The per-year hazard trial of the simulator (`synthetic_data.py`,
lines 247-250 and 287-289): `random.random() < rate / 1000` for a
uniform draw `u ∈ [0, 1)`. -/
def hazard_trial (u rate : ℚ) : Bool :=
  decide (u < rate / 1000)

/-!
Shallow embedding of `SyntheticDataGenerator` (`synthetic_data.py`).

The process-wide `random` / `np.random` state seeded once in
`__init__` is modelled as an explicit pseudo-random state threaded
through every draw; an LCG step stands for the seeded Mersenne-Twister
stream (any deterministic step function represents it faithfully for
the properties below, which depend only on all randomness being a
function of the seed).  Calendar dates are modelled at the granularity
of rational years: the 365-day stepping of the source becomes stepping
by one year, and day offsets inside a year become rational fractions of
a year.  The numpy `Gamma(shape=4, scale=12)` variate is modelled as a
deterministic function of one uniform draw.
-/

/-- One step of the modelled pseudo-random stream. -/
def rngNext (s : ℕ) : ℕ :=
  (6364136223846793005 * s + 1442695040888963407) % 2 ^ 64

/-- `random.random()`: a uniform rational in `[0, 1)` plus the next
state. -/
def randUnit (s : ℕ) : ℚ × ℕ :=
  let s2 := rngNext s
  (((s2 % 2 ^ 53 : ℕ) : ℚ) / ((2 ^ 53 : ℕ) : ℚ), s2)

/-- `random.randint(lo, hi)` (inclusive bounds) plus the next state. -/
def randint (lo hi : ℕ) (s : ℕ) : ℕ × ℕ :=
  let s2 := rngNext s
  (lo + s2 % (hi - lo + 1), s2)

/-- `random.choice(xs)` plus the next state. -/
def randChoice (xs : List ℕ) (s : ℕ) : ℕ × ℕ :=
  let s2 := rngNext s
  (xs.getD (s2 % xs.length) 0, s2)

/-- The `np.random.gamma(shape=4, scale=12)` age variate, modelled as a
deterministic function of one uniform draw (scaled to the
distribution's mean of 48). -/
def gammaVariate (s : ℕ) : ℚ × ℕ :=
  let (u, s2) := randUnit s
  (48 * u, s2)

/-- `np.clip`. -/
def clip (x lo hi : ℚ) : ℚ := max lo (min x hi)

/-- A generated OMOP person row (`omop_schema.Person` as populated by
`_generate_persons`), with the mutable `death_datetime` slot set later
by `_generate_deaths`. -/
structure Person where
  person_id : ℕ
  gender_concept_id : ℕ
  year_of_birth : ℤ
  month_of_birth : ℕ
  day_of_birth : ℕ
  race_concept_id : ℕ
  ethnicity_concept_id : ℕ
  death_time : Option ℚ
deriving DecidableEq, Repr

/-- A generated observation period row, with start/end instants as
rational year coordinates. -/
structure ObservationPeriod where
  observation_period_id : ℕ
  person_id : ℕ
  start_time : ℚ
  end_time : ℚ
deriving DecidableEq, Repr

/-- A generated condition occurrence row. -/
structure ConditionOccurrence where
  condition_occurrence_id : ℕ
  person_id : ℕ
  condition_concept_id : ℕ
  condition_start_time : ℚ
deriving DecidableEq, Repr

/-- A generated death row. -/
structure Death where
  person_id : ℕ
  death_time : ℚ
deriving DecidableEq, Repr

/-- The in-memory accumulators of a `SyntheticDataGenerator` after
`generate()`. -/
structure Population where
  persons : List Person
  observation_periods : List ObservationPeriod
  conditions : List ConditionOccurrence
  deaths : List Death
deriving DecidableEq, Repr

/-- The birth instant of a person as a rational year coordinate. -/
def Person.birth_time (p : Person) : ℚ :=
  (p.year_of_birth : ℚ) + ((p.month_of_birth - 1 : ℚ)) / 12

/-- Embedding of `_generate_persons` (`synthetic_data.py`, lines
163-187): one person per index, age drawn from the shifted clipped
gamma model, birth year `reference_year - int(age)`, month/day and the
categorical concepts drawn from the stream. -/
def generatePersons (n : ℕ) (endYear : ℤ) (s0 : ℕ) : List Person × ℕ :=
  (List.range n).foldl
    (fun acc i =>
      let (g, s1) := gammaVariate acc.2
      let age := clip (g + 20) 0 100
      let birth_year := endYear - ⌊age⌋
      let (bm, s2) := randint 1 12 s1
      let (bd, s3) := randint 1 28 s2
      let (gender, s4) := randChoice [8507, 8532] s3
      let (race, s5) := randChoice [8527, 8516, 8515, 8522] s4
      let (eth, s6) := randChoice [38003563, 38003564] s5
      (acc.1 ++ [⟨i + 1, gender, birth_year, bm, bd, race, eth, none⟩], s6))
    ([], s0)

/-- Embedding of `_generate_observation_periods` (`synthetic_data.py`,
lines 189-219): start at the later of `start_year` and the 18th
birthday, shifted by a bounded random day offset when more than a year
of room exists; end at the reference date. -/
def generateObservationPeriods (persons : List Person) (startYear endYear : ℤ)
    (s0 : ℕ) : List ObservationPeriod × ℕ :=
  let refTime : ℚ := (endYear : ℚ) + 1
  let r := (persons.foldl
    (fun acc p =>
      let (obs, oid, s) := acc
      let earliest : ℚ := max ((startYear : ℚ)) (p.birth_time + 18)
      let (start_time, s2) :=
        if refTime < earliest then (p.birth_time, s)
        else
          let daysRange : ℚ := (refTime - earliest) * 365
          if 365 < daysRange then
            let bound : ℕ := min ⌊daysRange⌋.toNat (365 * 3)
            let (offset, s3) := randint 0 bound s
            (earliest + (offset : ℚ) / 365, s3)
          else (earliest, s)
      (obs ++ [⟨oid, p.person_id, start_time, refTime⟩], oid + 1, s2))
    (([] : List ObservationPeriod), 1, s0))
  (r.1, r.2.2)

/-- The yearly-stepping hazard loop shared by condition and mortality
simulation (`synthetic_data.py`, lines 245-267 and 283-308): step one
year at a time while inside the window; at each step draw one uniform
trial against the age-appropriate annual probability; on success place
the event uniformly within the following year and accept it only if it
still lies inside the window.  The fuel argument bounds the number of
yearly steps. -/
def hazardLoop (rates : List RateBand) (birth wEnd : ℚ) :
    ℕ → ℚ → ℕ → Option ℚ × ℕ
  | 0, _, s => (none, s)
  | fuel + 1, cur, s =>
    if cur ≤ wEnd then
      let age := cur - birth
      let rate := get_rate_for_age rates age
      let (u, s1) := randUnit s
      if hazard_trial u rate then
        let (offDays, s2) := randint 0 364 s1
        let eventTime := cur + (offDays : ℚ) / 365
        if eventTime ≤ wEnd then (some eventTime, s2)
        else hazardLoop rates birth wEnd fuel (cur + 1) s2
      else hazardLoop rates birth wEnd fuel (cur + 1) s1
    else (none, s)

/-- Fuel sufficient for a yearly walk across an observation window. -/
def loopFuel (wStart wEnd : ℚ) : ℕ :=
  ⌊wEnd - wStart⌋.toNat + 2

/-- Embedding of `_generate_conditions` (`synthetic_data.py`, lines
221-267): for every person with an observation period, simulate each
disease's first onset independently with the yearly hazard loop and
emit a condition row per accepted onset. -/
def generateConditions (persons : List Person)
    (obs : List ObservationPeriod) (s0 : ℕ) :
    List ConditionOccurrence × ℕ :=
  let r := persons.foldl
    (fun acc p =>
      let (conds, cid, s) := acc
      match obs.find? (fun op => op.person_id == p.person_id) with
      | none => (conds, cid, s)
      | some op =>
        DISEASE_INCIDENCE_RATES.foldl
          (fun acc2 disease =>
            let (conds2, cid2, s2) := acc2
            let (onset?, s3) := hazardLoop disease.2.2 p.birth_time
              op.end_time (loopFuel op.start_time op.end_time)
              op.start_time s2
            match onset? with
            | some onset =>
              (conds2 ++ [⟨cid2, p.person_id, disease.2.1, onset⟩],
                cid2 + 1, s3)
            | none => (conds2, cid2, s3))
          (conds, cid, s))
    (([] : List ConditionOccurrence), 1, s0)
  (r.1, r.2.2)

/-- Embedding of `_generate_deaths` (`synthetic_data.py`, lines
269-308): run the yearly mortality hazard loop per person; on a death,
record it, set the person's death slot and truncate that person's
observation period end to the death date.  Deaths run after condition
generation, so already-generated condition rows are not re-validated
against the truncated window (the ordering the specification calls
out). -/
def generateDeaths (persons : List Person) (obs : List ObservationPeriod)
    (s0 : ℕ) : List Person × List ObservationPeriod × List Death × ℕ :=
  persons.foldl
    (fun acc p =>
      let (ps, os, ds, s) := acc
      match os.find? (fun op => op.person_id == p.person_id) with
      | none => (ps ++ [p], os, ds, s)
      | some op =>
        let (death?, s2) := hazardLoop MORTALITY_RATES p.birth_time
          op.end_time (loopFuel op.start_time op.end_time) op.start_time s
        match death? with
        | some dtime =>
          (ps ++ [⟨p.person_id, p.gender_concept_id, p.year_of_birth,
             p.month_of_birth, p.day_of_birth, p.race_concept_id,
             p.ethnicity_concept_id, some dtime⟩],
           os.map (fun o =>
             if o.person_id == p.person_id then
               ⟨o.observation_period_id, o.person_id, o.start_time, dtime⟩
             else o),
           ds ++ [⟨p.person_id, dtime⟩], s2)
        | none => (ps ++ [p], os, ds, s2))
    (([] : List Person), obs, ([] : List Death), s0)

/-- Embedding of `SyntheticDataGenerator(...)` followed by
`generate()` (`synthetic_data.py`, lines 123-161): persons, observation
periods, conditions, then deaths, all drawing from the single stream
seeded in `__init__`. -/
def generatePopulation (n_patients : ℕ) (startYear endYear : ℤ)
    (seed : ℕ) : Population :=
  let (persons, s1) := generatePersons n_patients endYear seed
  let (obs, s2) := generateObservationPeriods persons startYear endYear s1
  let (conds, s3) := generateConditions persons obs s2
  let (persons2, obs2, deaths, _) := generateDeaths persons obs s3
  ⟨persons2, obs2, conds, deaths⟩

/-- Construction plus `generate()` over an integer `n_patients`
argument.  The source performs no validation of `n_patients`; the only
failure a non-positive value can cause is `np.random.gamma` raising
`ValueError: negative dimensions are not allowed` for a negative size,
modelled as the error case.  `n_patients = 0` flows through and yields
an empty population. -/
def synthetic_generate (n_patients : ℤ) (startYear endYear : ℤ)
    (seed : ℕ) : Except String Population :=
  if n_patients < 0 then
    Except.error "negative dimensions are not allowed"
  else
    Except.ok (generatePopulation n_patients.toNat startYear endYear seed)

/-- The demographic fields of a person the determinism property talks
about: birth year/month/day, gender, race, ethnicity. -/
def demographics (p : Person) : ℤ × ℕ × ℕ × ℕ × ℕ × ℕ :=
  (p.year_of_birth, p.month_of_birth, p.day_of_birth, p.gender_concept_id,
    p.race_concept_id, p.ethnicity_concept_id)

/-! ## Theorems -/

/-- Unfolding equation of `classify_individual` for a disease-free
individual. -/
theorem classify_individual_false (pid : ℕ) (ca : ℚ) (aad : Option ℚ)
    (t m : ℚ) :
    classify_individual pid ca false aad t m =
      if t ≤ ca ∧ m ≤ ca then
        ⟨pid, ca, false, none, true, ca - t, "resilient_ager"⟩
      else if m ≤ ca then
        ⟨pid, ca, false, none, false, 0, "disease_free_not_threshold"⟩
      else ⟨pid, ca, false, none, false, 0, "too_young"⟩ := rfl

/-- Unfolding equation of `classify_individual` for an affected
individual with a recorded diagnosis age. -/
theorem classify_individual_true_some (pid : ℕ) (ca d t m : ℚ) :
    classify_individual pid ca true (some d) t m =
      if d ≠ 0 ∧ t < d then
        ⟨pid, ca, true, some d, false, d - t, "late_onset"⟩
      else ⟨pid, ca, true, some d, false, 0, "affected"⟩ := rfl

/-- Unfolding equation of `classify_individual` for an affected
individual without a recorded diagnosis age. -/
theorem classify_individual_true_none (pid : ℕ) (ca t m : ℚ) :
    classify_individual pid ca true none t m =
      ⟨pid, ca, true, none, false, 0, "affected"⟩ := rfl

/-- C2: with `threshold_age = 67.5` and `min_age = 60`, an undiagnosed
50-year-old is `too_young`; a diagnosis at 65 gives `affected` with
resilience score 0; a diagnosis at 70 gives `late_onset` with
resilience score `70 - 67.5 = 2.5`. -/
theorem claim_C2 :
    (classify_individual 1 50 false none (67.5 : ℚ) 60).classification =
      "too_young" ∧
    (classify_individual 2 80 true (some 65) (67.5 : ℚ) 60).classification =
      "affected" ∧
    (classify_individual 2 80 true (some 65) (67.5 : ℚ) 60).resilience_score
      = 0 ∧
    (classify_individual 3 90 true (some 70) (67.5 : ℚ) 60).classification =
      "late_onset" ∧
    (classify_individual 3 90 true (some 70) (67.5 : ℚ) 60).resilience_score
      = 2.5 := by
  refine ⟨?_, ?_, ?_, ?_, ?_⟩ <;> norm_num [classify_individual]

/-- The filter counted by `n_events` grows with the age bound. -/
theorem n_events_mono (tls : List AgeTimeline) {a1 a2 : ℚ} (h : a1 ≤ a2) :
    n_events tls a1 ≤ n_events tls a2 := by
  unfold n_events
  rw [← List.countP_eq_length_filter, ← List.countP_eq_length_filter]
  apply List.countP_mono_left
  intro t _ ht
  rcases hd : t.age_at_diagnosis with _ | d
  · rw [hd] at ht
    simp at ht
  · rw [hd] at ht
    simp only [decide_eq_true_eq] at ht ⊢
    exact le_trans ht h

/-- Cumulative incidence is monotone in the age argument. -/
theorem cumulative_incidence_mono (tls : List AgeTimeline) {a1 a2 : ℚ}
    (h : a1 ≤ a2) :
    cumulative_incidence tls a1 ≤ cumulative_incidence tls a2 := by
  unfold cumulative_incidence
  split_ifs with hl
  · have hle : ((n_events tls a1 : ℚ)) ≤ (n_events tls a2 : ℚ) := by
      exact_mod_cast n_events_mono tls h
    have hpos : (0 : ℚ) < (tls.length : ℚ) := by exact_mod_cast hl
    exact div_le_div_of_nonneg_right hle hpos.le
  · exact le_refl 0

/-- C3: on the fixed grid `0, step, 2·step, …, max_age`, cumulative
incidence is non-decreasing: `a1 ≤ a2` implies
`cumulative_incidence a1 ≤ cumulative_incidence a2`, for every
population of timelines. -/
theorem claim_C3 (tls : List AgeTimeline) (max_age age_step a1 a2 : ℚ)
    (h1 : a1 ∈ age_grid max_age age_step)
    (h2 : a2 ∈ age_grid max_age age_step) (h : a1 ≤ a2) :
    cumulative_incidence tls a1 ≤ cumulative_incidence tls a2 :=
  cumulative_incidence_mono tls h

/-- Witness for C3 at the grid of step 1 up to 1 and a concrete
one-person population. -/
theorem claim_C3_witness :
    (0 : ℚ) ∈ age_grid 1 1 ∧ (1 : ℚ) ∈ age_grid 1 1 ∧
    cumulative_incidence [⟨1, 50, some 40, false⟩] 0 ≤
      cumulative_incidence [⟨1, 50, some 40, false⟩] 1 := by
  have hgrid : (⌈((1 : ℚ) + 1) / 1⌉).toNat = 2 := by
    rw [show (⌈((1 : ℚ) + 1) / 1⌉) = 2 by norm_num]
    decide
  have hgl : age_grid 1 1 = [0, 1] := by
    unfold age_grid
    rw [hgrid, show List.range 2 = [0, 1] from rfl]
    norm_num
  have h0 : (0 : ℚ) ∈ age_grid 1 1 := by rw [hgl]; simp
  have h1 : (1 : ℚ) ∈ age_grid 1 1 := by rw [hgl]; simp
  exact ⟨h0, h1, claim_C3 _ 1 1 0 1 h0 h1 (by norm_num)⟩

/-- C5: `n_at_risk` counts exactly the timelines satisfying the union
of the three at-risk clauses, each satisfying timeline counted once. -/
theorem claim_C5 (tls : List AgeTimeline) (age : ℚ) :
    n_at_risk tls age =
      tls.countP (fun t => decide (at_risk_spec age t)) := by
  unfold n_at_risk
  rw [← List.countP_eq_length_filter]
  apply List.countP_congr
  intro t _
  cases hd : t.age_at_diagnosis <;> cases hdec : t.is_deceased <;>
    simp [at_risk_spec, hd, hdec, Bool.or_assoc, decide_eq_true_eq]

/-- C6: `classify_individual` always produces one of the five labels, a
non-negative resilience score, and `is_resilient` holds exactly on the
label `resilient_ager`. -/
theorem claim_C6 (pid : ℕ) (current_age : ℚ) (has_condition : Bool)
    (aad : Option ℚ) (threshold_age min_age : ℚ) :
    ((classify_individual pid current_age has_condition aad threshold_age
        min_age).classification = "resilient_ager" ∨
     (classify_individual pid current_age has_condition aad threshold_age
        min_age).classification = "affected" ∨
     (classify_individual pid current_age has_condition aad threshold_age
        min_age).classification = "late_onset" ∨
     (classify_individual pid current_age has_condition aad threshold_age
        min_age).classification = "disease_free_not_threshold" ∨
     (classify_individual pid current_age has_condition aad threshold_age
        min_age).classification = "too_young") ∧
    0 ≤ (classify_individual pid current_age has_condition aad threshold_age
        min_age).resilience_score ∧
    ((classify_individual pid current_age has_condition aad threshold_age
        min_age).is_resilient = true ↔
     (classify_individual pid current_age has_condition aad threshold_age
        min_age).classification = "resilient_ager") := by
  cases has_condition with
  | false =>
    rw [classify_individual_false]
    split_ifs with hres hold
    · refine ⟨Or.inl rfl, ?_, by simp⟩
      show (0 : ℚ) ≤ current_age - threshold_age
      linarith [hres.1]
    · exact ⟨Or.inr (Or.inr (Or.inr (Or.inl rfl))), le_refl 0, by simp⟩
    · exact ⟨Or.inr (Or.inr (Or.inr (Or.inr rfl))), le_refl 0, by simp⟩
  | true =>
    cases aad with
    | none =>
      rw [classify_individual_true_none]
      exact ⟨Or.inr (Or.inl rfl), le_refl 0, by simp⟩
    | some d =>
      rw [classify_individual_true_some]
      split_ifs with hlate
      · refine ⟨Or.inr (Or.inr (Or.inl rfl)), ?_, by simp⟩
        show (0 : ℚ) ≤ d - threshold_age
        linarith [hlate.2]
      · exact ⟨Or.inr (Or.inl rfl), le_refl 0, by simp⟩

/-- `classify_individual` passes the current age through unchanged. -/
theorem classify_individual_current_age (pid : ℕ) (ca : ℚ) (hc : Bool)
    (aad : Option ℚ) (t m : ℚ) :
    (classify_individual pid ca hc aad t m).current_age = ca := by
  cases hc with
  | false => rw [classify_individual_false]; split_ifs <;> rfl
  | true =>
    cases aad with
    | none => rw [classify_individual_true_none]
    | some d => rw [classify_individual_true_some]; split_ifs <;> rfl

/-- C7: when `min_age` exceeds every individual's current age, the
eligible set of `compare_cohorts` is empty and the totals and
percentages are all zero (no division-by-zero failure). -/
theorem claim_C7 (tls : List AgeTimeline) (dk : String) (min_age : ℚ)
    (h : ∀ t ∈ tls, t.current_age < min_age) :
    (compare_cohorts tls dk min_age).total_eligible = 0 ∧
    (compare_cohorts tls dk min_age).pct_resilient = 0 ∧
    (compare_cohorts tls dk min_age).pct_affected = 0 := by
  have hfil : ∀ r ∈ classify_resilient_agers tls dk min_age 75,
      ¬ (min_age ≤ r.current_age) := by
    intro r hr
    unfold classify_resilient_agers at hr
    simp only [List.mem_map] at hr
    obtain ⟨t, ht, rfl⟩ := hr
    simp only [classify_individual_current_age]
    exact not_le.mpr (h t ht)
  have hempty : (classify_resilient_agers tls dk min_age 75).filter
      (fun r => decide (min_age ≤ r.current_age)) = [] := by
    rw [List.filter_eq_nil_iff]
    intro r hr
    simpa using hfil r hr
  simp only [compare_cohorts, hempty, List.filter_nil, List.length_nil]
  norm_num

/-- C1 evaluated at its failing input: for a population whose single
individual is unaffected (age 70, `min_age` 60), all three percentile
thresholds are `None` and the population classifier substitutes the
100-year sentinel threshold — but the disease-free 70-year-old is then
classified `disease_free_not_threshold`, not `resilient_ager` as the
claim (and the code's own comment at `resilient_ager.py` line 239)
states. -/
theorem claim_C1_eval :
    (get_population_thresholds [⟨1, 70, none, false⟩]).median_onset_age
      = none ∧
    (get_population_thresholds
      [⟨1, 70, none, false⟩]).percentile_75_onset_age = none ∧
    (get_population_thresholds
      [⟨1, 70, none, false⟩]).percentile_90_onset_age = none ∧
    population_threshold_age [⟨1, 70, none, false⟩] 75 = 100 ∧
    (classify_resilient_agers [⟨1, 70, none, false⟩] "type2_diabetes" 60
      75).map (fun r => r.classification) =
      ["disease_free_not_threshold"] := by
  refine ⟨rfl, rfl, rfl, by decide, by decide⟩

/-- C4: two simulator runs with identical
`(n_patients, seed, start_year, end_year)` produce identical
demographic fields for every person and identical condition and death
counts.  In the embedding the seeded pseudo-random stream is explicit
state, so a run is a function of exactly these parameters. -/
theorem claim_C4 (n_patients seed : ℕ) (start_year end_year : ℤ) :
    (generatePopulation n_patients start_year end_year seed).persons.map
        demographics =
      (generatePopulation n_patients start_year end_year seed).persons.map
        demographics ∧
    (generatePopulation n_patients start_year end_year
        seed).conditions.length =
      (generatePopulation n_patients start_year end_year
        seed).conditions.length ∧
    (generatePopulation n_patients start_year end_year seed).deaths.length =
      (generatePopulation n_patients start_year end_year
        seed).deaths.length :=
  ⟨rfl, rfl, rfl⟩

/-- C9 evaluated at its failing input: `n_patients = 0` is not
rejected — construction plus `generate()` succeeds and yields an empty
in-memory population (and no storage is touched: the result is plain
data, persisted only by the separate save step). -/
theorem claim_C9_eval :
    synthetic_generate 0 2010 2023 42 =
      Except.ok (generatePopulation 0 2010 2023 42) ∧
    (generatePopulation 0 2010 2023 42).persons = [] ∧
    (generatePopulation 0 2010 2023 42).observation_periods = [] ∧
    (generatePopulation 0 2010 2023 42).conditions = [] ∧
    (generatePopulation 0 2010 2023 42).deaths = [] :=
  ⟨rfl, rfl, rfl, rfl, rfl⟩

/-- An age matching no band of a rate table draws the fall-through rate
`0.0`. -/
theorem get_rate_for_age_eq_zero (rates : List RateBand) (age : ℚ)
    (h : ∀ b ∈ rates, ¬(b.1.1 ≤ age ∧ age < b.1.2)) :
    get_rate_for_age rates age = 0 := by
  induction rates with
  | nil => rfl
  | cons b rest ih =>
    obtain ⟨⟨lo, hi⟩, r⟩ := b
    unfold get_rate_for_age
    rw [if_neg (h _ (List.mem_cons_self _ _))]
    exact ih (fun b hb => h b (List.mem_cons_of_mem _ hb))

/-- Every band of every rate table the simulator consults has its upper
bound at most 100. -/
theorem all_rate_tables_upper :
    ∀ tbl ∈ all_rate_tables, ∀ b ∈ tbl, b.1.2 ≤ 100 := by decide

/-- C10: an age outside every half-open band draws rate `0.0`; in
particular every disease and mortality table ends at upper bound 100,
so at age 100 or above the rate is 0 and the per-year hazard trial can
never succeed — no condition onset or death is simulated at such an
age. -/
theorem claim_C10 (age u : ℚ) (h100 : 100 ≤ age) (hu : 0 ≤ u) :
    (∀ rates : List RateBand,
      (∀ b ∈ rates, ¬(b.1.1 ≤ age ∧ age < b.1.2)) →
        get_rate_for_age rates age = 0) ∧
    (∀ tbl ∈ all_rate_tables, get_rate_for_age tbl age = 0 ∧
      hazard_trial u (get_rate_for_age tbl age) = false) := by
  refine ⟨fun rates h => get_rate_for_age_eq_zero rates age h, ?_⟩
  intro tbl htbl
  have hz : get_rate_for_age tbl age = 0 := by
    apply get_rate_for_age_eq_zero
    intro b hb hcontra
    have hup := all_rate_tables_upper tbl htbl b hb
    linarith [hcontra.2]
  refine ⟨hz, ?_⟩
  rw [hz]
  simp only [hazard_trial, zero_div, decide_eq_false_iff_not]
  exact not_lt.mpr hu

/-- Witness for C10 at age 100, draw 0 and the mortality table. -/
theorem claim_C10_witness :
    get_rate_for_age MORTALITY_RATES 100 = 0 ∧
    hazard_trial 0 (get_rate_for_age MORTALITY_RATES 100) = false :=
  (claim_C10 100 0 (le_refl 100) (le_refl 0)).2 MORTALITY_RATES
    (List.mem_cons_self _ _)

/-- In a sorted list, `getD` (with any default) is monotone over
in-range indices. -/
theorem sorted_getD_le (s : List ℚ) (hs : List.Sorted (· ≤ ·) s) {a b : ℕ}
    (hab : a ≤ b) (hb : b < s.length) : s.getD a 0 ≤ s.getD b 0 := by
  have ha : a < s.length := lt_of_le_of_lt hab hb
  rw [List.getD_eq_getElem s 0 ha, List.getD_eq_getElem s 0 hb]
  exact hs.rel_get_of_le hab

/-- Linear interpolation into a sorted list is monotone in the virtual
index over the valid range `[0, n-1]`. -/
theorem interpolate_mono (s : List ℚ) (hs : List.Sorted (· ≤ ·) s)
    (hn : 1 ≤ s.length) {p1 p2 : ℚ} (h0 : 0 ≤ p1) (h12 : p1 ≤ p2)
    (htop : p2 ≤ (s.length : ℚ) - 1) :
    interpolate s p1 ≤ interpolate s p2 := by
  have h0' : 0 ≤ p2 := le_trans h0 h12
  have hf1 : (0 : ℤ) ≤ ⌊p1⌋ := Int.floor_nonneg.mpr h0
  have hf2 : (0 : ℤ) ≤ ⌊p2⌋ := Int.floor_nonneg.mpr h0'
  have e1 : ((⌊p1⌋.toNat : ℤ)) = ⌊p1⌋ := Int.toNat_of_nonneg hf1
  have e2 : ((⌊p2⌋.toNat : ℤ)) = ⌊p2⌋ := Int.toNat_of_nonneg hf2
  have hl1 : ((⌊p1⌋.toNat : ℚ)) ≤ p1 := by
    have h := Int.floor_le p1
    have : ((⌊p1⌋.toNat : ℤ) : ℚ) = ((⌊p1⌋ : ℤ) : ℚ) := by exact_mod_cast e1
    push_cast at this
    linarith [this ▸ h]
  have hl2 : ((⌊p2⌋.toNat : ℚ)) ≤ p2 := by
    have h := Int.floor_le p2
    have : ((⌊p2⌋.toNat : ℤ) : ℚ) = ((⌊p2⌋ : ℤ) : ℚ) := by exact_mod_cast e2
    push_cast at this
    linarith [this ▸ h]
  have hp1lt : p1 < ((⌊p1⌋.toNat : ℚ)) + 1 := by
    have h := Int.lt_floor_add_one p1
    have : ((⌊p1⌋.toNat : ℤ) : ℚ) = ((⌊p1⌋ : ℤ) : ℚ) := by exact_mod_cast e1
    push_cast at this
    linarith [this ▸ h]
  have hl12 : ⌊p1⌋.toNat ≤ ⌊p2⌋.toNat :=
    Int.toNat_le_toNat (Int.floor_mono h12)
  have hl2top : ⌊p2⌋.toNat ≤ s.length - 1 := by
    have hfl : ⌊p2⌋ ≤ (s.length : ℤ) - 1 := by
      have : ((s.length : ℚ)) - 1 = (((s.length : ℤ) - 1 : ℤ) : ℚ) := by
        push_cast; ring
      have h := Int.floor_mono htop
      rwa [this, Int.floor_intCast] at h
    omega
  have hl1top : ⌊p1⌋.toNat ≤ s.length - 1 := le_trans hl12 hl2top
  set n := s.length with hn'
  set l1 := ⌊p1⌋.toNat with hl1'
  set l2 := ⌊p2⌋.toNat with hl2'
  have hi1lt : min (l1 + 1) (n - 1) < n := by omega
  have hi2lt : min (l2 + 1) (n - 1) < n := by omega
  have hl1lt : l1 < n := by omega
  have hl2lt : l2 < n := by omega
  have hAB1 : s.getD l1 0 ≤ s.getD (min (l1 + 1) (n - 1)) 0 :=
    sorted_getD_le s hs (by omega) hi1lt
  have hAB2 : s.getD l2 0 ≤ s.getD (min (l2 + 1) (n - 1)) 0 :=
    sorted_getD_le s hs (by omega) hi2lt
  show s.getD l1 0 + (p1 - (l1 : ℚ)) *
      (s.getD (min (l1 + 1) (n - 1)) 0 - s.getD l1 0) ≤
    s.getD l2 0 + (p2 - (l2 : ℚ)) *
      (s.getD (min (l2 + 1) (n - 1)) 0 - s.getD l2 0)
  rcases eq_or_lt_of_le hl12 with heq | hlt
  · rw [← heq]
    have hfr : p1 - (l1 : ℚ) ≤ p2 - (l1 : ℚ) := by linarith
    nlinarith [mul_nonneg (sub_nonneg.mpr h12)
      (sub_nonneg.mpr hAB1)]
  · have hchain1 : s.getD l1 0 + (p1 - (l1 : ℚ)) *
        (s.getD (min (l1 + 1) (n - 1)) 0 - s.getD l1 0) ≤
        s.getD (min (l1 + 1) (n - 1)) 0 := by
      nlinarith [mul_nonneg (by linarith : (0 : ℚ) ≤ 1 - (p1 - (l1 : ℚ)))
        (sub_nonneg.mpr hAB1)]
    have hchain2 : s.getD (min (l1 + 1) (n - 1)) 0 ≤ s.getD l2 0 :=
      sorted_getD_le s hs (by omega) hl2lt
    have hchain3 : s.getD l2 0 ≤ s.getD l2 0 + (p2 - (l2 : ℚ)) *
        (s.getD (min (l2 + 1) (n - 1)) 0 - s.getD l2 0) := by
      nlinarith [mul_nonneg (by linarith : (0 : ℚ) ≤ p2 - (l2 : ℚ))
        (sub_nonneg.mpr hAB2)]
    linarith

/-- The numpy linear-interpolation percentile is monotone in the
requested percentile over `[0, 100]`, for a non-empty sample. -/
theorem npPercentile_mono (xs : List ℚ) (hne : xs ≠ []) {q1 q2 : ℚ}
    (h0 : 0 ≤ q1) (h12 : q1 ≤ q2) (h100 : q2 ≤ 100) :
    npPercentile xs q1 ≤ npPercentile xs q2 := by
  unfold npPercentile
  have hs : List.Sorted (· ≤ ·) (List.insertionSort (· ≤ ·) xs) :=
    List.sorted_insertionSort _ _
  have hlen : (List.insertionSort (· ≤ ·) xs).length = xs.length :=
    (List.perm_insertionSort _ _).length_eq
  have hn : 1 ≤ (List.insertionSort (· ≤ ·) xs).length := by
    rw [hlen]
    exact List.length_pos.mpr hne
  have hn' : (1 : ℚ) ≤ ((List.insertionSort (· ≤ ·) xs).length : ℚ) := by
    exact_mod_cast hn
  apply interpolate_mono _ hs hn
  · exact mul_nonneg (by linarith) (by linarith)
  · exact mul_le_mul_of_nonneg_right (by linarith) (by linarith)
  · calc q2 / 100 * (((List.insertionSort (· ≤ ·) xs).length : ℚ) - 1) ≤
        1 * (((List.insertionSort (· ≤ ·) xs).length : ℚ) - 1) :=
          mul_le_mul_of_nonneg_right (by linarith) (by linarith)
    _ = ((List.insertionSort (· ≤ ·) xs).length : ℚ) - 1 := one_mul _

/-- C8: whenever the median, 75th and 90th percentile onset ages are
all defined — in particular for a population with at least two affected
individuals at distinct diagnosis ages — they are ordered
`median ≤ p75 ≤ p90`. -/
theorem claim_C8 (tls : List AgeTimeline) (m p75 p90 : ℚ)
    (hlen : 2 ≤ (tls.filterMap (fun t => t.age_at_diagnosis)).length)
    (hnodup : (tls.filterMap (fun t => t.age_at_diagnosis)).Nodup)
    (hm : get_percentile_onset_age tls 50 = some m)
    (h75 : get_percentile_onset_age tls 75 = some p75)
    (h90 : get_percentile_onset_age tls 90 = some p90) :
    m ≤ p75 ∧ p75 ≤ p90 := by
  have hne : tls.filterMap (fun t => t.age_at_diagnosis) ≠ [] := by
    intro hcon
    rw [hcon] at hlen
    simp at hlen
  have hie : (tls.filterMap (fun t => t.age_at_diagnosis)).isEmpty = false :=
    by simpa [List.isEmpty_iff] using hne
  unfold get_percentile_onset_age at hm h75 h90
  simp only [hie, Bool.false_eq_true, if_false, Option.some.injEq]
    at hm h75 h90
  subst hm h75 h90
  exact ⟨npPercentile_mono _ hne (by norm_num) (by norm_num) (by norm_num),
    npPercentile_mono _ hne (by norm_num) (by norm_num) (by norm_num)⟩

/-- Witness for C7 on a one-person population entirely below the
minimum age. -/
theorem claim_C7_witness :
    (∀ t ∈ ([⟨1, 50, none, false⟩] : List AgeTimeline),
      t.current_age < 60) ∧
    (compare_cohorts [⟨1, 50, none, false⟩] "type2_diabetes"
      60).total_eligible = 0 ∧
    (compare_cohorts [⟨1, 50, none, false⟩] "type2_diabetes"
      60).pct_resilient = 0 ∧
    (compare_cohorts [⟨1, 50, none, false⟩] "type2_diabetes"
      60).pct_affected = 0 := by
  have h : ∀ t ∈ ([⟨1, 50, none, false⟩] : List AgeTimeline),
      t.current_age < 60 := by decide
  exact ⟨h, claim_C7 _ _ _ h⟩

/-- Witness for C8 on a two-person population diagnosed at ages 60 and
70: the percentiles evaluate to 65, 67.5 and 69. -/
theorem claim_C8_witness :
    (2 ≤ (([⟨1, 80, some 60, false⟩, ⟨2, 85, some 70, false⟩] :
        List AgeTimeline).filterMap
          (fun t => t.age_at_diagnosis)).length) ∧
    (([⟨1, 80, some 60, false⟩, ⟨2, 85, some 70, false⟩] :
        List AgeTimeline).filterMap (fun t => t.age_at_diagnosis)).Nodup ∧
    get_percentile_onset_age
      [⟨1, 80, some 60, false⟩, ⟨2, 85, some 70, false⟩] 50 = some 65 ∧
    get_percentile_onset_age
      [⟨1, 80, some 60, false⟩, ⟨2, 85, some 70, false⟩] 75
      = some (135 / 2) ∧
    get_percentile_onset_age
      [⟨1, 80, some 60, false⟩, ⟨2, 85, some 70, false⟩] 90 = some 69 ∧
    ((65 : ℚ) ≤ 135 / 2 ∧ (135 / 2 : ℚ) ≤ 69) := by
  have hlen : 2 ≤ (([⟨1, 80, some 60, false⟩, ⟨2, 85, some 70, false⟩] :
      List AgeTimeline).filterMap (fun t => t.age_at_diagnosis)).length :=
    by decide
  have hnodup : (([⟨1, 80, some 60, false⟩, ⟨2, 85, some 70, false⟩] :
      List AgeTimeline).filterMap (fun t => t.age_at_diagnosis)).Nodup :=
    by decide
  have hfm : ([⟨1, 80, some 60, false⟩, ⟨2, 85, some 70, false⟩] :
      List AgeTimeline).filterMap (fun t => t.age_at_diagnosis)
      = [60, 70] := rfl
  have hsort : List.insertionSort (· ≤ ·) [(60 : ℚ), 70] = [60, 70] := by
    norm_num [List.insertionSort, List.orderedInsert]
  have hm : get_percentile_onset_age
      [⟨1, 80, some 60, false⟩, ⟨2, 85, some 70, false⟩] 50 = some 65 := by
    unfold get_percentile_onset_age
    rw [hfm]
    norm_num [npPercentile, hsort, interpolate]
  have h75 : get_percentile_onset_age
      [⟨1, 80, some 60, false⟩, ⟨2, 85, some 70, false⟩] 75
      = some (135 / 2) := by
    unfold get_percentile_onset_age
    rw [hfm]
    norm_num [npPercentile, hsort, interpolate]
  have h90 : get_percentile_onset_age
      [⟨1, 80, some 60, false⟩, ⟨2, 85, some 70, false⟩] 90 = some 69 := by
    unfold get_percentile_onset_age
    rw [hfm]
    norm_num [npPercentile, hsort, interpolate]
  exact ⟨hlen, hnodup, hm, h75, h90,
    claim_C8 _ _ _ _ hlen hnodup hm h75 h90⟩

end ResilientAging
